import Mathlib

/-!
Shallow embedding of the OAuth credential-management core of
homebridge-smartthings: the token store (`src/src/auth/tokenManager.ts`,
and its polling variant `src/unnamed/part_000`) and the OAuth flow
controller (`src/src/auth/auth.ts`).

Modelling conventions:
* JS timestamps (`Date.now()`) are threaded explicitly as an `Int`
  parameter `now` (milliseconds).
* A TS object of interface `TokenData` is modelled with every field
  optional, because the `as TokenData` cast in `updateTokens` lets
  objects missing required fields inhabit the type at runtime.
* The persisted token file is modelled as an optional JSON document
  (`Option Json`); `JSON.stringify` omits absent (undefined) fields.
* Network calls (`axios.post`) are external: their outcome is passed in
  as an `Option TokenData` argument, `none` meaning the call threw.
* The Homebridge-config compatibility sync inside `updateTokens` writes
  to a collaborator outside this core and is not modelled.
-/

/-- A minimal JSON document, enough for the persisted token file. -/
inductive Json where
  | str : String → Json
  | num : Int → Json
  | obj : List (String × Json) → Json
deriving Repr

/-- The runtime shape of a `TokenData` object.  All fields are optional:
TS marks the first five required, but `updateTokens` builds the record
with a spread plus an `as TokenData` cast, so missing fields occur. -/
structure TokenData where
  access_token : Option String := none
  refresh_token : Option String := none
  expires_in : Option Int := none
  expires_at : Option Int := none
  refresh_token_expires_at : Option Int := none
  installed_app_id : Option String := none
  location_id : Option String := none
deriving Repr, DecidableEq

/-- One present field of the serialized JSON object; `JSON.stringify`
omits fields that are `undefined`. -/
def fieldEntry (key : String) (v : Option Json) : List (String × Json) :=
  match v with
  | some j => [(key, j)]
  | none => []

/-- `JSON.stringify(this.tokenData)` in `saveTokens`. -/
def serializeTokenData (td : TokenData) : Json :=
  Json.obj
    (fieldEntry "access_token" (td.access_token.map Json.str) ++
     fieldEntry "refresh_token" (td.refresh_token.map Json.str) ++
     fieldEntry "expires_in" (td.expires_in.map Json.num) ++
     fieldEntry "expires_at" (td.expires_at.map Json.num) ++
     fieldEntry "refresh_token_expires_at" (td.refresh_token_expires_at.map Json.num) ++
     fieldEntry "installed_app_id" (td.installed_app_id.map Json.str) ++
     fieldEntry "location_id" (td.location_id.map Json.str))

/-- First value bound to a key in a JSON object. -/
def lookupKey (l : List (String × Json)) (k : String) : Option Json :=
  match l with
  | [] => none
  | (k2, v) :: rest => if k2 = k then some v else lookupKey rest k

def asStr (j : Option Json) : Option String :=
  match j with
  | some (Json.str s) => some s
  | _ => none

def asNum (j : Option Json) : Option Int :=
  match j with
  | some (Json.num n) => some n
  | _ => none

/-- `JSON.parse` of the token file, read back as a `TokenData` object
(`loadTokens` assigns the parsed value without validation; a non-object
document is treated as a parse failure here). -/
def parseTokenData (j : Json) : Option TokenData :=
  match j with
  | Json.obj l => some {
      access_token := asStr (lookupKey l "access_token"),
      refresh_token := asStr (lookupKey l "refresh_token"),
      expires_in := asNum (lookupKey l "expires_in"),
      expires_at := asNum (lookupKey l "expires_at"),
      refresh_token_expires_at := asNum (lookupKey l "refresh_token_expires_at"),
      installed_app_id := asStr (lookupKey l "installed_app_id"),
      location_id := asStr (lookupKey l "location_id") }
  | _ => none

/-- The mutable state of a `TokenManager`: the in-memory record and the
persisted file (`smartthings_tokens.json`), absent when never written. -/
structure TMState where
  tokenData : Option TokenData := none
  file : Option Json := none
deriving Repr

/-- JS object-spread for one field: `{...old, ...incoming}` keeps the
incoming value when present, else the old one. -/
def jsOr {α : Type} (incoming old : Option α) : Option α :=
  match incoming with
  | some v => some v
  | none => old

/-- `{...this.tokenData, ...tokenData}` field by field (a spread of
`null` contributes nothing, handled by the caller). -/
def spreadMerge (old incoming : TokenData) : TokenData :=
  { access_token := jsOr incoming.access_token old.access_token,
    refresh_token := jsOr incoming.refresh_token old.refresh_token,
    expires_in := jsOr incoming.expires_in old.expires_in,
    expires_at := jsOr incoming.expires_at old.expires_at,
    refresh_token_expires_at := jsOr incoming.refresh_token_expires_at old.refresh_token_expires_at,
    installed_app_id := jsOr incoming.installed_app_id old.installed_app_id,
    location_id := jsOr incoming.location_id old.location_id }

/-- `saveTokens` (tokenManager.ts 42-51 / part_000 87-96): writes the
record to the file only when one exists. -/
def saveTokens (st : TMState) : TMState :=
  match st.tokenData with
  | some td => { st with file := some (serializeTokenData td) }
  | none => st

/-- `loadTokens` (tokenManager.ts 30-40): parse the file if present; a
read/parse failure is caught and leaves the record as it was. -/
def loadTokens (st : TMState) : TMState :=
  match st.file with
  | some j =>
    match parseTokenData j with
    | some td => { st with tokenData := some td }
    | none => st
  | none => st

/-- `updateTokens` (tokenManager.ts 53-86 / part_000 98-130): spread-merge
the incoming fields over the current record, overwrite `expires_at` with
`Date.now() + (tokenData.expires_in || 0) * 1000` and
`refresh_token_expires_at` with `Date.now() + 30d`, then save.
`expires_in` is read from the incoming argument, not the merge; `|| 0`
maps both a missing and a zero `expires_in` to 0. -/
def updateTokens (st : TMState) (incoming : TokenData) (now : Int) : TMState :=
  let base : TokenData := st.tokenData.getD {}
  let merged := spreadMerge base incoming
  let newData : TokenData :=
    { merged with
      expires_at := some (now + incoming.expires_in.getD 0 * 1000),
      refresh_token_expires_at := some (now + 30 * 24 * 60 * 60 * 1000) }
  saveTokens { st with tokenData := some newData }

/-- `tokenData?.access_token || null`: JS `||` also maps an empty string
to null. -/
def truthyStr (s : Option String) : Option String :=
  match s with
  | some v => if v = "" then none else some v
  | none => none

def getAccessToken (st : TMState) : Option String :=
  match st.tokenData with
  | some td => truthyStr td.access_token
  | none => none

def getRefreshToken (st : TMState) : Option String :=
  match st.tokenData with
  | some td => truthyStr td.refresh_token
  | none => none

/-- `isTokenValid` (tokenManager.ts 96-99): `Date.now() < expires_at`;
with `expires_at` undefined the JS comparison is false. -/
def isTokenValid (st : TMState) (now : Int) : Bool :=
  match st.tokenData with
  | some td =>
    match td.expires_at with
    | some e => decide (now < e)
    | none => false
  | none => false

/-- `isRefreshTokenValid` (tokenManager.ts 101-104). -/
def isRefreshTokenValid (st : TMState) (now : Int) : Bool :=
  match st.tokenData with
  | some td =>
    match td.refresh_token_expires_at with
    | some e => decide (now < e)
    | none => false
  | none => false

/-- `clearTokens` (tokenManager.ts 123-131 / part_000 150-158): drop the
record and delete the backing file. -/
def clearTokens (st : TMState) : TMState :=
  { st with tokenData := none, file := none }

/-- The transient state of `SmartThingsAuth` (auth.ts 12-26): the pending
CSRF state nonce, `null` when no flow has been started. -/
structure AuthState where
  state : Option String := none
deriving Repr, DecidableEq

/-- The combined auth controller + token manager state. -/
structure Sys where
  auth : AuthState := {}
  tm : TMState := {}
deriving Repr

/-- An HTTP response as written on the callback's `ServerResponse`; the
claims only observe the status code. -/
structure HttpResponse where
  status : Nat
deriving Repr, DecidableEq

/-- `startAuthFlow` (auth.ts 118-142): store a fresh random nonce (the
randomness `crypto.randomBytes(32).toString` is passed in) and surface
the authorization URL; the token manager's state is untouched. -/
def startAuthFlow (sys : Sys) (newNonce : String) : Sys :=
  { sys with auth := { state := some newNonce } }

/-- The checks of `handleOAuthCallback` (auth.ts 30-36): `query.code` and
`query.state` truthy (present and non-empty), and
`query.state !== this.state` false. -/
def callbackValidates (sys : Sys) (qcode qstate : Option String) : Bool :=
  match qcode, qstate with
  | some c, some s => c ≠ "" && s ≠ "" && sys.auth.state == some s
  | _, _ => false

/-- `handleOAuthCallback` (auth.ts 28-50): on any thrown error (missing
params, state mismatch, failed exchange) write 500; on success exchange
the code (outcome passed in as `exchange`), update tokens and write 200.
No branch touches the pending nonce. -/
def handleOAuthCallback (sys : Sys) (qcode qstate : Option String)
    (exchange : Option TokenData) (now : Int) : HttpResponse × Sys :=
  if callbackValidates sys qcode qstate then
    match exchange with
    | some tokens => (⟨200⟩, { sys with tm := updateTokens sys.tm tokens now })
    | none => (⟨500⟩, sys)
  else (⟨500⟩, sys)

inductive RefreshResult where
  | success : RefreshResult
  | error : RefreshResult
deriving Repr, DecidableEq

/-- `refreshTokens` (auth.ts 78-116): throw if no refresh token; perform
the exchange (outcome passed in as `exchange`); on success update the
tokens.  In the catch block: if the refresh token is still valid only
log; otherwise call `startAuthFlow()`; then `throw error` re-raises in
either case, so the result is `error` on every failure path. -/
def refreshTokens (sys : Sys) (exchange : Option TokenData) (now : Int)
    (newNonce : String) : RefreshResult × Sys :=
  match getRefreshToken sys.tm, exchange with
  | some _, some tokens =>
    (RefreshResult.success, { sys with tm := updateTokens sys.tm tokens now })
  | _, _ =>
    if isRefreshTokenValid sys.tm now then
      (RefreshResult.error, sys)
    else
      (RefreshResult.error, startAuthFlow sys newNonce)

namespace Monitor

/-- part_000 line 20. -/
def REFRESH_BEFORE_EXPIRY : Int := 5 * 60 * 1000

/-- `isTokenValid` (part_000 140-143): this variant subtracts the
5-minute buffer from the raw expiry. -/
def isTokenValid (st : TMState) (now : Int) : Bool :=
  match st.tokenData with
  | some td =>
    match td.expires_at with
    | some e => decide (now < e - REFRESH_BEFORE_EXPIRY)
    | none => false
  | none => false

/-- `isRefreshTokenValid` (part_000 145-148), buffered likewise. -/
def isRefreshTokenValid (st : TMState) (now : Int) : Bool :=
  match st.tokenData with
  | some td =>
    match td.refresh_token_expires_at with
    | some e => decide (now < e - REFRESH_BEFORE_EXPIRY)
    | none => false
  | none => false

/-- What a scheduler tick decided to do. -/
inductive TickAction where
  | idle : TickAction
  | startFlow : TickAction
  | refresh : TickAction
deriving Repr, DecidableEq

/-- `checkAndRefreshTokens` (part_000 45-70), one tick of the 60s poll:
no record → nothing; refresh token within the buffer window →
`startAuthFlow()` and return (no `clearTokens`, no refresh attempt);
access token within the window → `refreshTokens()` with any error caught
and logged.  A comparison against an undefined timestamp is NaN-false in
JS, modelled by the `none` branches. -/
def checkAndRefreshTokens (sys : Sys) (now : Int) (newNonce : String)
    (exchange : Option TokenData) : TickAction × Sys :=
  match sys.tm.tokenData with
  | none => (TickAction.idle, sys)
  | some td =>
    let condRefreshExpiry : Bool :=
      match td.refresh_token_expires_at with
      | some r => decide (r - now ≤ REFRESH_BEFORE_EXPIRY)
      | none => false
    if condRefreshExpiry then
      (TickAction.startFlow, startAuthFlow sys newNonce)
    else
      let condAccessExpiry : Bool :=
        match td.expires_at with
        | some e => decide (e - now ≤ REFRESH_BEFORE_EXPIRY)
        | none => false
      if condAccessExpiry then
        (TickAction.refresh, (refreshTokens sys exchange now newNonce).2)
      else
        (TickAction.idle, sys)

end Monitor

/-- Serialization to the token file followed by a parse restores every
field of the record exactly. -/
theorem parse_serialize (td : TokenData) :
    parseTokenData (serializeTokenData td) = some td := by
  rcases td with ⟨a, r, ei, ea, rea, iai, li⟩
  cases a <;> cases r <;> cases ei <;> cases ea <;> cases rea <;> cases iai <;> cases li <;>
    simp [serializeTokenData, parseTokenData, fieldEntry, lookupKey, asStr, asNum]

/-- C5: `updateTokens` at instant `now` with a response carrying
`expires_in = n` merges the supplied fields onto the current record
(creating one if absent), sets `expires_at = now + n * 1000` and
`refresh_token_expires_at = now + 30 days` (independent of any supplied
value for that field), and persists the result synchronously. -/
theorem C5_updateTokens_spec (st : TMState) (incoming : TokenData) (now n : Int)
    (h : incoming.expires_in = some n) :
    ∃ r, (updateTokens st incoming now).tokenData = some r ∧
      r.expires_at = some (now + n * 1000) ∧
      r.refresh_token_expires_at = some (now + 2592000000) ∧
      r.access_token = jsOr incoming.access_token (st.tokenData.getD {}).access_token ∧
      r.refresh_token = jsOr incoming.refresh_token (st.tokenData.getD {}).refresh_token ∧
      r.expires_in = jsOr incoming.expires_in (st.tokenData.getD {}).expires_in ∧
      r.installed_app_id = jsOr incoming.installed_app_id (st.tokenData.getD {}).installed_app_id ∧
      r.location_id = jsOr incoming.location_id (st.tokenData.getD {}).location_id ∧
      (updateTokens st incoming now).file = some (serializeTokenData r) := by
  refine ⟨_, rfl, ?_, by norm_num, rfl, rfl, rfl, rfl, rfl, rfl⟩
  simp [h]

/-- Witness for C5 at a concrete response. -/
theorem C5_updateTokens_spec_witness :
    ((updateTokens { tokenData := none, file := none }
      ⟨some "AT", some "RT", some 3600, none, none, none, none⟩ 1000).tokenData.getD {}).expires_at
      = some 3601000 ∧
    ((updateTokens { tokenData := none, file := none }
      ⟨some "AT", some "RT", some 3600, none, none, none, none⟩ 1000).tokenData.getD {}).refresh_token_expires_at
      = some 2592001000 := by
  obtain ⟨r, h1, h2, h3, -, -, -, -, -, -⟩ :=
    C5_updateTokens_spec { tokenData := none, file := none }
      ⟨some "AT", some "RT", some 3600, none, none, none, none⟩ 1000 3600 rfl
  rw [h1]
  refine ⟨?_, ?_⟩
  · rw [Option.getD_some, h2]; norm_num
  · rw [Option.getD_some, h3]; norm_num

/-- C8: an `updateTokens` followed by a `loadTokens` from the file it
wrote yields a record with identical field values (the save/load pair
round-trips the record exactly). -/
theorem C8_update_load_roundtrip (st : TMState) (incoming : TokenData) (now : Int) :
    ∃ r, (updateTokens st incoming now).tokenData = some r ∧
      (loadTokens { tokenData := none, file := (updateTokens st incoming now).file }).tokenData
        = some r := by
  obtain ⟨r, h1, h2⟩ : ∃ r, (updateTokens st incoming now).tokenData = some r ∧
      (updateTokens st incoming now).file = some (serializeTokenData r) := ⟨_, rfl, rfl⟩
  exact ⟨r, h1, by simp [loadTokens, h2, parse_serialize]⟩

/-- C10: a token response with `expires_in` missing or zero makes
`updateTokens` set `expires_at` to the update instant itself; the record
is persisted rather than rejected, and `isTokenValid` is false at every
instant from the update on. -/
theorem C10_missing_expires_in (st : TMState) (incoming : TokenData) (now : Int)
    (h : incoming.expires_in = none ∨ incoming.expires_in = some 0) :
    ∃ r, (updateTokens st incoming now).tokenData = some r ∧
      r.expires_at = some now ∧
      (updateTokens st incoming now).file = some (serializeTokenData r) ∧
      ∀ now2 : Int, now ≤ now2 → isTokenValid (updateTokens st incoming now) now2 = false := by
  refine ⟨_, rfl, ?_, rfl, ?_⟩
  · rcases h with h | h <;> simp [h]
  · intro now2 hle
    rcases h with h | h <;>
      simp [isTokenValid, updateTokens, saveTokens, h, not_lt.mpr hle]

/-- Witness for C10 at a concrete response lacking `expires_in`. -/
theorem C10_missing_expires_in_witness :
    isTokenValid (updateTokens { tokenData := none, file := none }
      ⟨some "AT", some "RT", none, none, none, none, none⟩ 500) 600 = false := by
  obtain ⟨r, -, -, -, h4⟩ :=
    C10_missing_expires_in { tokenData := none, file := none }
      ⟨some "AT", some "RT", none, none, none, none, none⟩ 500 (Or.inl rfl)
  exact h4 600 (by norm_num)

/-- C3 counterexample: `updateTokens` on an absent record with an empty
partial response produces and persists a record whose `access_token` and
`refresh_token` are both missing, so the all-or-nothing record invariant
fails. -/
theorem C3_cex :
    ((updateTokens { tokenData := none, file := none } {} 0).tokenData.map
      (fun r => (r.access_token, r.refresh_token))) = some (none, none) ∧
    (updateTokens { tokenData := none, file := none } {} 0).file.isSome = true :=
  ⟨rfl, rfl⟩

/-- C3 amended: `updateTokens` spread-merges and persists
unconditionally; on an absent record, a response missing `access_token`
or `refresh_token` yields a persisted record missing those fields. -/
theorem C3_partial_record_persisted (incoming : TokenData) (now : Int)
    (ha : incoming.access_token = none) (hr : incoming.refresh_token = none) :
    ∃ r, (updateTokens { tokenData := none, file := none } incoming now).tokenData = some r ∧
      r.access_token = none ∧ r.refresh_token = none ∧
      (updateTokens { tokenData := none, file := none } incoming now).file =
        some (serializeTokenData r) := by
  refine ⟨_, rfl, ?_, ?_, rfl⟩
  · simp [spreadMerge, jsOr, ha]
  · simp [spreadMerge, jsOr, hr]

/-- Witness for the amended C3 at a concrete partial response. -/
theorem C3_partial_record_persisted_witness :
    ((updateTokens { tokenData := none, file := none }
      ⟨none, none, some 60, none, none, none, none⟩ 0).tokenData.getD {}).access_token = none ∧
    ((updateTokens { tokenData := none, file := none }
      ⟨none, none, some 60, none, none, none, none⟩ 0).tokenData.getD {}).refresh_token = none ∧
    (updateTokens { tokenData := none, file := none }
      ⟨none, none, some 60, none, none, none, none⟩ 0).file.isSome = true := by
  obtain ⟨r, h1, h2, h3, h4⟩ :=
    C3_partial_record_persisted ⟨none, none, some 60, none, none, none, none⟩ 0 rfl rfl
  refine ⟨?_, ?_, ?_⟩
  · rw [h1, Option.getD_some, h2]
  · rw [h1, Option.getD_some, h3]
  · rw [h4]; rfl

/-- C6 counterexample: the part_000 variant of `isTokenValid` returns
false on a record whose `expires_at` is still in the future
(`now = 100000 < expires_at = 300000`), because it subtracts a 5-minute
buffer; the claim predicts true there. -/
theorem C6_cex :
    Monitor.isTokenValid
      { tokenData := some { expires_at := some 300000 }, file := none } 100000 = false ∧
    (100000 : Int) < 300000 := ⟨rfl, by norm_num⟩

/-- C6 amended: `isTokenValid` of tokenManager.ts is true iff a record
exists and `now < expires_at`; the part_000 variant applies the 5-minute
buffer, true iff `now < expires_at - 300000`; both are false when no
record exists. -/
theorem C6_validity_predicates (st : TMState) (now : Int) :
    (isTokenValid st now = true ↔
      ∃ td e, st.tokenData = some td ∧ td.expires_at = some e ∧ now < e) ∧
    Monitor.REFRESH_BEFORE_EXPIRY = 300000 ∧
    (Monitor.isTokenValid st now = true ↔
      ∃ td e, st.tokenData = some td ∧ td.expires_at = some e ∧
        now < e - Monitor.REFRESH_BEFORE_EXPIRY) := by
  refine ⟨?_, rfl, ?_⟩
  · cases h : st.tokenData with
    | none => simp [isTokenValid, h]
    | some td =>
      cases he : td.expires_at with
      | none => simp [isTokenValid, h, he]
      | some e => simp [isTokenValid, h, he]
  · cases h : st.tokenData with
    | none => simp [Monitor.isTokenValid, h]
    | some td =>
      cases he : td.expires_at with
      | none => simp [Monitor.isTokenValid, h, he]
      | some e => simp [Monitor.isTokenValid, h, he]

/-- C1 counterexample: after `startAuthFlow` issues nonce "nonce123" and
one successful callback consumes it, a second callback supplying the
same state value still passes validation (and succeeds end to end); the
claim predicts the second validation fails. -/
theorem C1_cex :
    (handleOAuthCallback (startAuthFlow {} "nonce123") (some "abc") (some "nonce123")
      (some ⟨some "AT", some "RT", some 3600, none, none, none, none⟩) 0).1.status = 200 ∧
    callbackValidates
      (handleOAuthCallback (startAuthFlow {} "nonce123") (some "abc") (some "nonce123")
        (some ⟨some "AT", some "RT", some 3600, none, none, none, none⟩) 0).2
      (some "abc2") (some "nonce123") = true ∧
    (handleOAuthCallback
      (handleOAuthCallback (startAuthFlow {} "nonce123") (some "abc") (some "nonce123")
        (some ⟨some "AT", some "RT", some 3600, none, none, none, none⟩) 0).2
      (some "abc2") (some "nonce123")
      (some ⟨some "AT2", some "RT2", some 3600, none, none, none, none⟩) 1).1.status = 200 :=
  ⟨rfl, rfl, rfl⟩

/-- C1 amended: `handleOAuthCallback` never clears the pending nonce —
the nonce after any callback equals the nonce before, so a state value
that validates keeps validating on replayed callbacks until a new
`startAuthFlow` replaces it. -/
theorem C1_nonce_not_cleared (sys : Sys) (qc qs : Option String)
    (ex : Option TokenData) (now : Int) :
    (handleOAuthCallback sys qc qs ex now).2.auth.state = sys.auth.state ∧
    (callbackValidates sys qc qs = true →
      callbackValidates (handleOAuthCallback sys qc qs ex now).2 qc qs = true) := by
  constructor
  · unfold handleOAuthCallback
    split
    · cases ex <;> rfl
    · rfl
  · intro h
    unfold handleOAuthCallback
    rw [if_pos h]
    cases ex
    · exact h
    · exact h

/-- Witness for the amended C1 at a concrete callback. -/
theorem C1_nonce_not_cleared_witness :
    (handleOAuthCallback { auth := { state := some "n0" }, tm := {} } (some "c") (some "n0")
      (some {}) 0).2.auth.state = some "n0" ∧
    callbackValidates (handleOAuthCallback { auth := { state := some "n0" }, tm := {} }
      (some "c") (some "n0") (some {}) 0).2 (some "c") (some "n0") = true := by
  obtain ⟨h1, h2⟩ := C1_nonce_not_cleared { auth := { state := some "n0" }, tm := {} }
    (some "c") (some "n0") (some {}) 0
  exact ⟨h1, h2 rfl⟩

/-- C7: whenever the callback's validation fails (missing/empty code or
state, or a state differing from the pending nonce), the response is 500
and the whole system state — credential record, persisted file and
pending nonce — is left unchanged. -/
theorem C7_invalid_callback (sys : Sys) (qc qs : Option String)
    (ex : Option TokenData) (now : Int)
    (h : callbackValidates sys qc qs = false) :
    handleOAuthCallback sys qc qs ex now = (⟨500⟩, sys) := by
  unfold handleOAuthCallback
  simp [h]

/-- Witness for C7: a callback with a wrong state against a pending
nonce returns 500 and leaves the state untouched. -/
theorem C7_invalid_callback_witness :
    handleOAuthCallback
      { auth := { state := some "n1" },
        tm := { tokenData := some ⟨some "at", some "rt", some 3600, some 99, some 77, none, none⟩,
                file := none } }
      (some "abc") (some "wrong") (some {}) 5 =
    (⟨500⟩,
      { auth := { state := some "n1" },
        tm := { tokenData := some ⟨some "at", some "rt", some 3600, some 99, some 77, none, none⟩,
                file := none } }) :=
  C7_invalid_callback _ _ _ _ _ rfl

/-- C4 counterexample: with an expired refresh token and a failing
exchange, `refreshTokens` does invoke `startAuthFlow` (the nonce is set)
but still surfaces the failure as an error to its caller, contradicting
the claim that this case does not surface as an error. -/
theorem C4_cex :
    (refreshTokens
      { auth := {},
        tm := { tokenData := some ⟨some "at", some "rt", some 3600, some 0, some 0, none, none⟩,
                file := none } } none 1000 "nn").1 = RefreshResult.error ∧
    (refreshTokens
      { auth := {},
        tm := { tokenData := some ⟨some "at", some "rt", some 3600, some 0, some 0, none, none⟩,
                file := none } } none 1000 "nn").2.auth.state = some "nn" :=
  ⟨rfl, rfl⟩

/-- C4 amended: when the exchange fails, if the stored refresh token is
still within validity the whole state is unchanged (no `startAuthFlow`),
and otherwise `startAuthFlow` runs with the credential record untouched —
but in both cases the error is re-thrown to the caller of
`refreshTokens` (the scheduler's tick catches and logs it). -/
theorem C4_refresh_failure (sys : Sys) (now : Int) (nn : String) :
    (isRefreshTokenValid sys.tm now = true →
      refreshTokens sys none now nn = (RefreshResult.error, sys)) ∧
    (isRefreshTokenValid sys.tm now = false →
      refreshTokens sys none now nn = (RefreshResult.error, startAuthFlow sys nn) ∧
      (startAuthFlow sys nn).tm = sys.tm) := by
  constructor
  · intro h
    unfold refreshTokens
    cases hg : getRefreshToken sys.tm <;> simp [h]
  · intro h
    refine ⟨?_, rfl⟩
    unfold refreshTokens
    cases hg : getRefreshToken sys.tm <;> simp [h]

/-- Witness for the amended C4: one failing refresh with the refresh
token valid (state unchanged) and one with it expired (nonce reset). -/
theorem C4_refresh_failure_witness :
    refreshTokens
      { auth := {},
        tm := { tokenData := some ⟨some "at", some "rt", some 3600, some 99, some 5000, none, none⟩,
                file := none } } none 1000 "nn" =
      (RefreshResult.error,
        { auth := {},
          tm := { tokenData := some ⟨some "at", some "rt", some 3600, some 99, some 5000, none, none⟩,
                  file := none } }) ∧
    refreshTokens
      { auth := {},
        tm := { tokenData := some ⟨some "at", some "rt", some 3600, some 99, some 5000, none, none⟩,
                file := none } } none 9000 "nn" =
      (RefreshResult.error,
        startAuthFlow
          { auth := {},
            tm := { tokenData := some ⟨some "at", some "rt", some 3600, some 99, some 5000, none, none⟩,
                    file := none } } "nn") := by
  constructor
  · exact (C4_refresh_failure
      { auth := {},
        tm := { tokenData := some ⟨some "at", some "rt", some 3600, some 99, some 5000, none, none⟩,
                file := none } } 1000 "nn").1 rfl
  · exact ((C4_refresh_failure
      { auth := {},
        tm := { tokenData := some ⟨some "at", some "rt", some 3600, some 99, some 5000, none, none⟩,
                file := none } } 9000 "nn").2 rfl).1

/-- C2 counterexample: on a tick where the refresh token is past its
buffer window, `checkAndRefreshTokens` takes the start-auth-flow branch
but the credential record is still present afterwards — the claim that
the scheduler clears the stored credentials is false. -/
theorem C2_cex :
    (Monitor.checkAndRefreshTokens
      { auth := {},
        tm := { tokenData := some ⟨some "at", some "rt", some 3600, some 0, some 0, none, none⟩,
                file := none } } 1000000 "nn" none).1 = Monitor.TickAction.startFlow ∧
    (Monitor.checkAndRefreshTokens
      { auth := {},
        tm := { tokenData := some ⟨some "at", some "rt", some 3600, some 0, some 0, none, none⟩,
                file := none } } 1000000 "nn" none).2.tm.tokenData.isSome = true :=
  ⟨rfl, rfl⟩

/-- C2 amended: on a tick with a record whose
`refresh_token_expires_at - now` is within the 5-minute buffer, the
scheduler invokes `startAuthFlow()` and attempts no refresh, but it does
not clear the stored credentials: the token-manager state is unchanged. -/
theorem C2_refresh_expiry_tick (sys : Sys) (now : Int) (nn : String)
    (ex : Option TokenData) (td : TokenData) (r : Int)
    (h1 : sys.tm.tokenData = some td)
    (h2 : td.refresh_token_expires_at = some r)
    (h3 : r - now ≤ Monitor.REFRESH_BEFORE_EXPIRY) :
    Monitor.checkAndRefreshTokens sys now nn ex =
      (Monitor.TickAction.startFlow, startAuthFlow sys nn) ∧
    (startAuthFlow sys nn).tm = sys.tm := by
  refine ⟨?_, rfl⟩
  unfold Monitor.checkAndRefreshTokens
  rw [h1]
  simp [h2, h3]

/-- Witness for the amended C2 at a record with an expired refresh
token. -/
theorem C2_refresh_expiry_tick_witness :
    Monitor.checkAndRefreshTokens
      { auth := {},
        tm := { tokenData := some ⟨some "at", some "rt", some 3600, some 400, some 500, none, none⟩,
                file := none } } 1000 "nn" none =
      (Monitor.TickAction.startFlow,
        startAuthFlow
          { auth := {},
            tm := { tokenData := some ⟨some "at", some "rt", some 3600, some 400, some 500, none, none⟩,
                    file := none } } "nn") ∧
    (startAuthFlow
      { auth := {},
        tm := { tokenData := some ⟨some "at", some "rt", some 3600, some 400, some 500, none, none⟩,
                file := none } } "nn").tm =
      { tokenData := some ⟨some "at", some "rt", some 3600, some 400, some 500, none, none⟩,
        file := none } :=
  C2_refresh_expiry_tick
    { auth := {},
      tm := { tokenData := some ⟨some "at", some "rt", some 3600, some 400, some 500, none, none⟩,
              file := none } } 1000 "nn" none
    ⟨some "at", some "rt", some 3600, some 400, some 500, none, none⟩ 500 rfl rfl
    (by norm_num [Monitor.REFRESH_BEFORE_EXPIRY])

/-- C9 counterexample: with a record whose access token expires in four
minutes (buffer five minutes) and its refresh window far away, two
consecutive scheduler ticks — the second arriving while the first
exchange is still in flight, so the record is unchanged — each decide to
invoke `refresh()`: it runs twice, not exactly once. -/
theorem C9_cex :
    (Monitor.checkAndRefreshTokens
      { auth := {},
        tm := { tokenData := some ⟨some "at", some "rt", some 3600, some 240000, some 1000000000,
                  none, none⟩, file := none } } 0 "nn" none).1 = Monitor.TickAction.refresh ∧
    (Monitor.checkAndRefreshTokens
      { auth := {},
        tm := { tokenData := some ⟨some "at", some "rt", some 3600, some 240000, some 1000000000,
                  none, none⟩, file := none } } 60000 "nn" none).1 = Monitor.TickAction.refresh :=
  ⟨rfl, rfl⟩

/-- C9 amended: each tick is a non-blocking decision (the interval
callback only fires an async refresh), but no in-flight flag exists: on
any two ticks that both fall inside the access-token buffer window and
outside the refresh-token window while the record is unchanged (the
exchange still in flight), each tick invokes `refresh()` again. -/
theorem C9_double_refresh (sys : Sys) (now1 now2 : Int) (nn : String)
    (ex : Option TokenData) (td : TokenData) (e r : Int)
    (h1 : sys.tm.tokenData = some td)
    (he : td.expires_at = some e) (hr : td.refresh_token_expires_at = some r)
    (hr1 : Monitor.REFRESH_BEFORE_EXPIRY < r - now1)
    (hr2 : Monitor.REFRESH_BEFORE_EXPIRY < r - now2)
    (ha1 : e - now1 ≤ Monitor.REFRESH_BEFORE_EXPIRY)
    (ha2 : e - now2 ≤ Monitor.REFRESH_BEFORE_EXPIRY) :
    (Monitor.checkAndRefreshTokens sys now1 nn ex).1 = Monitor.TickAction.refresh ∧
    (Monitor.checkAndRefreshTokens sys now2 nn ex).1 = Monitor.TickAction.refresh := by
  constructor <;>
  · unfold Monitor.checkAndRefreshTokens
    rw [h1]
    simp [he, hr, not_le.mpr hr1, not_le.mpr hr2, ha1, ha2]

/-- Witness for the amended C9: the same record, two tick instants a
minute apart, both inside the buffer window. -/
theorem C9_double_refresh_witness :
    (Monitor.checkAndRefreshTokens
      { auth := {},
        tm := { tokenData := some ⟨some "at", some "rt", some 3600, some 250000, some 2000000000,
                  none, none⟩, file := none } } 0 "nn" none).1 = Monitor.TickAction.refresh ∧
    (Monitor.checkAndRefreshTokens
      { auth := {},
        tm := { tokenData := some ⟨some "at", some "rt", some 3600, some 250000, some 2000000000,
                  none, none⟩, file := none } } 60000 "nn" none).1 = Monitor.TickAction.refresh :=
  C9_double_refresh
    { auth := {},
      tm := { tokenData := some ⟨some "at", some "rt", some 3600, some 250000, some 2000000000,
                none, none⟩, file := none } } 0 60000 "nn" none
    ⟨some "at", some "rt", some 3600, some 250000, some 2000000000, none, none⟩ 250000 2000000000
    rfl rfl rfl
    (by norm_num [Monitor.REFRESH_BEFORE_EXPIRY])
    (by norm_num [Monitor.REFRESH_BEFORE_EXPIRY])
    (by norm_num [Monitor.REFRESH_BEFORE_EXPIRY])
    (by norm_num [Monitor.REFRESH_BEFORE_EXPIRY])
